import Mathlib

/-!
Verification development for the surveillance core of
`advanced_surveillance_system.py` (class `SurveillanceSystem`).

The Python code is shallowly embedded as follows.

* Float arithmetic is modelled by exact real arithmetic (`ℝ`); `math.sqrt`
  is `Real.sqrt`.
* A MediaPipe landmark list is modelled as `LandmarkFrame := ℕ → Option
  LandmarkPoint`; an index that raises `IndexError` in Python is an index
  mapped to `Option.none`, and each `try ... except IndexError` block is a
  `match` whose catch-all arm is the translation of the `except` body.
* The mutable instance fields touched by each method are gathered into
  small state structures (`SysState`, `FpsState`), and each method becomes
  a pure state-transition function; environment interaction
  (`cv2.VideoCapture(i).isOpened()`) is a parameter `opens : ℕ → Bool`.
* `winsound.Beep(freq, dur)` is modelled by the pair `(freq, dur)` the
  call would receive; the pipeline emitting no beep at all is `Option.none`.
-/

/-- A normalized 2-D landmark position (the `.x` / `.y` fields that
`calculate_distance` reads; `.z` is unused by the embedded code). -/
structure LandmarkPoint where
  x : ℝ
  y : ℝ

/-- The landmark list of one detected face; `none` at an index models a
lookup that would raise `IndexError`. -/
abbrev LandmarkFrame := ℕ → Option LandmarkPoint

/-- `calculate_distance` (line 48): Euclidean distance between two points. -/
noncomputable def calculate_distance (point_a point_b : LandmarkPoint) : ℝ :=
  Real.sqrt ((point_a.x - point_b.x) ^ 2 + (point_a.y - point_b.y) ^ 2)

/-- `self.movement_threshold = 0.008` (line 28). -/
def movement_threshold : ℝ := 0.008

/-- `self.eye_open_threshold = 0.0012` (line 29). -/
def eye_open_threshold : ℝ := 0.0012

/-- `self.LEFT_EYE_CORNERS = [33, 133]` (line 22). -/
def LEFT_EYE_CORNERS : ℕ × ℕ := (33, 133)

/-- `self.RIGHT_EYE_CORNERS = [362, 263]` (line 23). -/
def RIGHT_EYE_CORNERS : ℕ × ℕ := (362, 263)

/-- `self.LEFT_IRIS = 468` (line 24). -/
def LEFT_IRIS : ℕ := 468

/-- `self.RIGHT_IRIS = 473` (line 25). -/
def RIGHT_IRIS : ℕ := 473

/-- The string labels `analyze_gaze_direction` can return. -/
inductive GazeLabel
  | EXTREME_LEFT
  | LEFT
  | CENTER
  | RIGHT
  | EXTREME_RIGHT
  | TRACKING_ERROR
  | DETECTION_FAILED
deriving DecidableEq, Repr

/-- The `eye_side` argument of `analyze_gaze_direction` (`"left"` or any
other string, which the code treats as the right eye). -/
inductive EyeSide
  | left
  | right
deriving DecidableEq, Repr

/-- The landmark indices `(corner_left, corner_right, iris_center)` chosen
by the `if eye_side == "left"` branch of `analyze_gaze_direction`
(lines 55-62): `(33, 133, 468)` for the left eye, `(362, 263, 473)`
otherwise. -/
def eye_indices : EyeSide → ℕ × ℕ × ℕ
  | .left => (33, 133, 468)
  | .right => (362, 263, 473)

/-- `analyze_gaze_direction` (lines 52-85): ratio of iris-to-corner over
corner-to-corner distance, bucketed by thresholds.  Returns the label and
the extreme/alert flag.  The `eye_width == 0` guard returns
`(TRACKING_ERROR, false)` before the division; a missing landmark index
(`IndexError`) lands in the `except` arm `(DETECTION_FAILED, true)`. -/
noncomputable def analyze_gaze_direction (face_landmarks : LandmarkFrame)
    (eye_side : EyeSide) : GazeLabel × Bool :=
  match face_landmarks (eye_indices eye_side).1,
        face_landmarks (eye_indices eye_side).2.1,
        face_landmarks (eye_indices eye_side).2.2 with
  | some corner_left, some corner_right, some iris_center =>
    let eye_width := calculate_distance corner_left corner_right
    let iris_position := calculate_distance corner_left iris_center
    if eye_width = 0 then (.TRACKING_ERROR, false)
    else
      let gaze_r := iris_position / eye_width
      if gaze_r < 0.25 then (.EXTREME_LEFT, true)
      else if gaze_r < 0.35 then (.LEFT, false)
      else if gaze_r > 0.75 then (.EXTREME_RIGHT, true)
      else if gaze_r > 0.65 then (.RIGHT, false)
      else (.CENTER, false)
  | _, _, _ => (.DETECTION_FAILED, true)

/-- `detect_eye_state` (lines 87-103): true iff both corner-pair distances
strictly exceed `eye_open_threshold`; a missing index (`IndexError`)
returns `false`. -/
noncomputable def detect_eye_state (face_landmarks : LandmarkFrame) : Bool :=
  match face_landmarks LEFT_EYE_CORNERS.1, face_landmarks LEFT_EYE_CORNERS.2,
        face_landmarks RIGHT_EYE_CORNERS.1, face_landmarks RIGHT_EYE_CORNERS.2 with
  | some left_upper, some left_lower, some right_upper, some right_lower =>
    let left_opening := calculate_distance left_upper left_lower
    let right_opening := calculate_distance right_upper right_lower
    if left_opening > eye_open_threshold ∧ right_opening > eye_open_threshold
    then true else false
  | _, _, _, _ => false

/-- `monitor_head_movement` (lines 105-119).  The mutable field
`self.previous_nose_position` is passed in and returned explicitly:
the result is `((moved, magnitude), new_previous_nose_position)`.
Landmark 1 is the nose tip; a missing index returns `(false, 0.0)` and
leaves the stored position untouched. -/
noncomputable def monitor_head_movement (face_landmarks : LandmarkFrame)
    (previous_nose_position : Option LandmarkPoint) :
    (Bool × ℝ) × Option LandmarkPoint :=
  match face_landmarks 1 with
  | some current_nose =>
    match previous_nose_position with
    | some prev =>
      let movement := calculate_distance current_nose prev
      if movement > movement_threshold then ((true, movement), some current_nose)
      else ((false, 0.0), some current_nose)
    | none => ((false, 0.0), some current_nose)
  | none => ((false, 0.0), previous_nose_position)

/-- The `surveillance_status` strings of `process_video_frame`. -/
inductive SurveillanceStatus
  | NO_TARGET
  | EYES_CLOSED
  | EXCESSIVE_MOVEMENT
  | SUSPICIOUS_GAZE
  | TARGET_LOCKED
deriving DecidableEq, Repr

/-- The `threat_level` strings of `process_video_frame`. -/
inductive ThreatLevel
  | SECURE
  | CAUTION
  | WARNING
  | ALERT
deriving DecidableEq, Repr

/-- The alert kinds of the pipeline: the three `trigger_alert` argument
strings plus `NONE` for the branches that call `trigger_alert` not at
all. -/
inductive AlertKind
  | NONE
  | STANDARD
  | WARNING
  | CRITICAL
deriving DecidableEq, Repr

/-- The `alert_frequencies` dictionary of `trigger_alert` (lines 123-127),
keyed by the alert kind; `NONE` is not a key of the dictionary. -/
def alert_frequencies (duration : ℕ) : AlertKind → Option (ℕ × ℕ)
  | .STANDARD => some (800, duration)
  | .WARNING => some (1200, duration * 2)
  | .CRITICAL => some (1500, duration * 3)
  | .NONE => none

/-- `trigger_alert` (lines 121-133): dictionary lookup with fallback
`(800, 200)`; the result is the `(freq, dur)` pair handed to
`winsound.Beep`. -/
def trigger_alert (alert_type : AlertKind) (duration : ℕ) : ℕ × ℕ :=
  (alert_frequencies duration alert_type).getD (800, 200)

/-- The alert side effect of one classified frame: the status branches of
`process_video_frame` call `trigger_alert("warning")` or
`trigger_alert("standard")` with the default duration argument, and the
`TARGET_LOCKED` / no-face branches make no call at all (`Option.none`).
`duration` is the base duration (the call sites use the default 200). -/
def dispatch_alert (kind : AlertKind) (duration : ℕ) : Option (ℕ × ℕ) :=
  match kind with
  | .NONE => none
  | k => some (trigger_alert k duration)

/-- The status-decision chain of `process_video_frame` (lines 192-208),
as a function of the four feature booleans produced on a detected face:
`eyes_open`, `head_moved`, `left_alert`, `right_alert`.  The result is
`(surveillance_status, threat_level, alert kind triggered)`. -/
def classify (eyes_open head_moved left_alert right_alert : Bool) :
    SurveillanceStatus × ThreatLevel × AlertKind :=
  if !eyes_open then (.EYES_CLOSED, .ALERT, .WARNING)
  else if head_moved then (.EXCESSIVE_MOVEMENT, .WARNING, .STANDARD)
  else if left_alert || right_alert then (.SUSPICIOUS_GAZE, .CAUTION, .STANDARD)
  else (.TARGET_LOCKED, .SECURE, .NONE)

/-- A `cv2.VideoCapture` object: the device index it was constructed with
and what `isOpened()` answers for it. -/
structure Capture where
  index : ℕ
  opened : Bool
deriving DecidableEq, Repr

/-- The `self.control_status` strings set by the session methods:
`"SYSTEM OFFLINE"`, `"SYSTEM ACTIVE"`, `"CAMERA ERROR"`. -/
inductive CtrlStatus
  | SYSTEM_OFFLINE
  | SYSTEM_ACTIVE
  | CAMERA_ERROR
deriving DecidableEq, Repr

/-- The session fields of `SurveillanceSystem` touched by
`initiate_monitoring` / `terminate_monitoring` / `cycle_camera_input`:
`is_monitoring`, `capture_device` (`none` = the Python field is `None`),
`camera_index`, and the `control_status` display variable. -/
structure SysState where
  is_monitoring : Bool
  capture_device : Option Capture
  camera_index : ℕ
  control_status : CtrlStatus
deriving DecidableEq, Repr

/-- `initiate_monitoring` (lines 278-291).  `opens i` is what
`cv2.VideoCapture(i).isOpened()` answers.  When already monitoring the
guard `if not self.is_monitoring` makes the whole body a no-op.  On a
failed open, `capture_device` keeps the unopened capture object (the code
does not reset it) and the status shows `CAMERA ERROR`. -/
def initiate_monitoring (opens : ℕ → Bool) (s : SysState) : SysState :=
  if !s.is_monitoring then
    let dev : Capture := ⟨s.camera_index, opens s.camera_index⟩
    if dev.opened then
      { s with is_monitoring := true, capture_device := some dev,
               control_status := .SYSTEM_ACTIVE }
    else
      { s with is_monitoring := false, capture_device := some dev,
               control_status := .CAMERA_ERROR }
  else s

/-- `terminate_monitoring` (lines 293-301): clears the running flag,
releases the capture device if one is held, shows `SYSTEM OFFLINE`.  The
second component reports whether `release()` was called. -/
def terminate_monitoring (s : SysState) : SysState × Bool :=
  match s.capture_device with
  | some _ =>
      ({ s with is_monitoring := false, capture_device := none,
                control_status := .SYSTEM_OFFLINE }, true)
  | none =>
      ({ s with is_monitoring := false, control_status := .SYSTEM_OFFLINE }, false)

/-- The probe loop of `cycle_camera_input` (lines 310-318):
`for test_index in range(5)` tries `(camera_index + 1 + test_index) % 5`
and breaks at the first index that opens; if none opens, `camera_index`
is left unchanged.  The bounded `List.range 5` mirrors Python's
`range(5)`, so the probe terminates by construction. -/
def probe_camera (opens : ℕ → Bool) (camera_index : ℕ) : ℕ :=
  match (List.range 5).find? (fun test_index => opens ((camera_index + 1 + test_index) % 5)) with
  | some test_index => (camera_index + 1 + test_index) % 5
  | none => camera_index

/-- `cycle_camera_input` (lines 303-321): stop if running, probe the next
device window, then start again if it had been running. -/
def cycle_camera_input (opens : ℕ → Bool) (s : SysState) : SysState :=
  let was_monitoring := s.is_monitoring
  let s1 := if was_monitoring then (terminate_monitoring s).1 else s
  let s2 := { s1 with camera_index := probe_camera opens s1.camera_index }
  if was_monitoring then initiate_monitoring opens s2 else s2

/-- The FPS-related fields of the producer loop of `process_video_frame`:
`last_update_time`, `fps_counter`, `fps_display` (set in `__init__`,
lines 37-39) and `fps_start_time`, an attribute no code ever initializes —
`Option.none` models the attribute being absent, and `Option.getD`
models `getattr(self, 'fps_start_time', current_time)` (line 221). -/
structure FpsState where
  last_update_time : ℝ
  fps_counter : ℕ
  fps_display : ℕ
  fps_start_time : Option ℝ

/-- The `__init__` values: `last_update_time = 0`, `fps_counter = 0`,
`fps_display = 0`; `fps_start_time` is never assigned, so the attribute
is absent. -/
def initFpsState : FpsState := ⟨0, 0, 0, none⟩

/-- One successfully captured iteration of the producer loop of
`process_video_frame`, restricted to its timing state (lines 152-158 and
220-224), at wall-clock time `current_time`: the 30-FPS throttle skips
the frame when under budget (`continue`); otherwise the frame is
processed, the counter incremented, and the FPS block runs its
`current_time - getattr(self, 'fps_start_time', current_time) >= 1.0`
check. -/
noncomputable def fps_step (s : FpsState) (current_time : ℝ) : FpsState :=
  if current_time - s.last_update_time < 1 / 30 then s
  else
    let s1 := { s with last_update_time := current_time,
                       fps_counter := s.fps_counter + 1 }
    if current_time - (s1.fps_start_time.getD current_time) ≥ 1.0 then
      { s1 with fps_display := s1.fps_counter, fps_counter := 0,
                fps_start_time := some current_time }
    else s1

/-- The producer loop run over a list of capture timestamps. -/
noncomputable def fps_run (s : FpsState) : List ℝ → FpsState
  | [] => s
  | t :: ts => fps_run (fps_step s t) ts

/-! Concrete inputs used to exercise the definitions. -/

/-- A landmark at the middle of the normalized frame. -/
noncomputable def p0 : LandmarkPoint := ⟨1 / 2, 1 / 2⟩

/-- Origin landmark. -/
noncomputable def pA : LandmarkPoint := ⟨0, 0⟩

/-- A landmark at distance `5/1000 = 0.005` from `pA` (a 3-4-5 triangle). -/
noncomputable def pB : LandmarkPoint := ⟨3 / 1000, 4 / 1000⟩

/-- A landmark at distance exactly `eye_open_threshold = 0.0012` from `pA`. -/
noncomputable def pC : LandmarkPoint := ⟨12 / 10000, 0⟩

/-- A frame whose left-eye corners and iris all coincide: the left
corner-to-corner eye width is zero (degenerate geometry); every other
index, in particular the whole right eye, is missing. -/
noncomputable def degenerate_frame : LandmarkFrame := fun i =>
  if i = 33 ∨ i = 133 ∨ i = 468 then some p0 else none

/-- A frame whose two eye corner pairs are both `0.005` apart — clearly
above the `0.0012` open threshold. -/
noncomputable def open_eyes_frame : LandmarkFrame := fun i =>
  if i = 33 ∨ i = 362 then some pA
  else if i = 133 ∨ i = 263 then some pB
  else none

/-- A frame whose left corner pair is exactly `0.0012` apart (at the
threshold) and whose right pair is `0.005` apart. -/
noncomputable def threshold_eyes_frame : LandmarkFrame := fun i =>
  if i = 33 ∨ i = 362 then some pA
  else if i = 133 then some pC
  else if i = 263 then some pB
  else none

/-- A frame carrying only the nose-tip landmark (index 1). -/
noncomputable def nose_frame : LandmarkFrame := fun i => if i = 1 then some p0 else none

/-- A frame with no landmarks at all. -/
def empty_frame : LandmarkFrame := fun _ => none

/-- A session that is actively monitoring with an open device 0. -/
def running_state : SysState :=
  ⟨true, some ⟨0, true⟩, 0, .SYSTEM_ACTIVE⟩

/-- A freshly stopped (idle) session: nothing monitored, no device held. -/
def idle_state : SysState :=
  ⟨false, none, 0, .SYSTEM_OFFLINE⟩

/-! Helper lemmas. -/

/-- The distance from a point to itself is zero. -/
theorem calculate_distance_self (p : LandmarkPoint) : calculate_distance p p = 0 := by
  simp [calculate_distance]

/-- `pA` and `pB` are `5/1000` apart. -/
theorem dist_pA_pB : calculate_distance pA pB = 5 / 1000 := by
  have h : (pA.x - pB.x) ^ 2 + (pA.y - pB.y) ^ 2 = ((5 : ℝ) / 1000) ^ 2 := by
    norm_num [pA, pB]
  rw [calculate_distance, h, Real.sqrt_sq (by norm_num)]

/-- `pA` and `pC` are exactly `eye_open_threshold` apart. -/
theorem dist_pA_pC : calculate_distance pA pC = eye_open_threshold := by
  have h : (pA.x - pC.x) ^ 2 + (pA.y - pC.y) ^ 2 = ((12 : ℝ) / 10000) ^ 2 := by
    norm_num [pA, pC]
  rw [calculate_distance, h, Real.sqrt_sq (by norm_num), eye_open_threshold]
  norm_num

/-- With no openable device, the probe loop finds nothing and
`camera_index` is left unchanged. -/
theorem probe_camera_of_none (opens : ℕ → Bool) (camera_index : ℕ)
    (hnone : ∀ i, opens i = false) :
    probe_camera opens camera_index = camera_index := by
  have h : (List.range 5).find?
      (fun test_index => opens ((camera_index + 1 + test_index) % 5)) = none := by
    rw [List.find?_eq_none]
    intro x _
    simp [hnone]
  rw [probe_camera, h]

/-! Theorems for the claims. -/

/-- Claim C2: with a detected face, the first classification rule wins:
whenever `eyes_open = false` the result is `EYES_CLOSED` / `ALERT` with a
`WARNING` alert, whatever `head_moved` and the gaze-extremity flags are;
in particular `eyes_open = false ∧ head_moved = true` never yields
`EXCESSIVE_MOVEMENT`. -/
theorem claim2_eyes_closed_precedence :
    ∀ (head_moved left_alert right_alert : Bool),
      classify false head_moved left_alert right_alert =
        (SurveillanceStatus.EYES_CLOSED, ThreatLevel.ALERT, AlertKind.WARNING) ∧
      (classify false true left_alert right_alert).1 ≠
        SurveillanceStatus.EXCESSIVE_MOVEMENT := by
  decide

/-- Claim C5: the alert dispatch of one classified frame produces exactly
the specified tone for each alert kind — `STANDARD ↦ (800, base)`,
`WARNING ↦ (1200, 2·base)`, `CRITICAL ↦ (1500, 3·base)` — and `NONE`
produces no signal at all. -/
theorem claim5_alert_mapping (duration : ℕ) :
    dispatch_alert .NONE duration = none ∧
    dispatch_alert .STANDARD duration = some (800, duration) ∧
    dispatch_alert .WARNING duration = some (1200, duration * 2) ∧
    dispatch_alert .CRITICAL duration = some (1500, duration * 3) :=
  ⟨rfl, rfl, rfl, rfl⟩

/-- Claim C9: `terminate_monitoring` is idempotent — after one call the
second call leaves the state unchanged and does not release the capture
device a second time. -/
theorem claim9_stop_idempotent (s : SysState) :
    terminate_monitoring (terminate_monitoring s).1 =
      ((terminate_monitoring s).1, false) := by
  cases s with
  | mk m dev ci cs => cases dev <;> rfl

/-- Claim C4 (counterexample): calling `initiate_monitoring` while the
session is already monitoring returns the state completely unchanged —
the status display included — so nothing resembling an `AlreadyRunning`
failure is signalled. -/
theorem claim4_counterexample :
    initiate_monitoring (fun _ => true) running_state = running_state ∧
    running_state.is_monitoring = true ∧
    running_state.control_status = CtrlStatus.SYSTEM_ACTIVE :=
  ⟨rfl, rfl, rfl⟩

/-- Claim C4 (amended): calling `initiate_monitoring` while already
monitoring is a well-defined but silent no-op — the guard
`if not self.is_monitoring` skips the whole body, every field (including
the status display) is unchanged, and no failure is signalled. -/
theorem claim4_start_while_running_noop (opens : ℕ → Bool) (s : SysState)
    (h : s.is_monitoring = true) :
    initiate_monitoring opens s = s := by
  simp [initiate_monitoring, h]

/-- Claim C4 (witness at a concrete running state). -/
theorem claim4_witness :
    initiate_monitoring (fun _ => false) running_state = running_state :=
  claim4_start_while_running_noop (fun _ => false) running_state rfl

/-- Claim C10: a frame without the nose-tip landmark makes
`monitor_head_movement` return `(false, 0.0)` and keep the previously
stored nose position untouched. -/
theorem claim10_missing_nose (face_landmarks : LandmarkFrame)
    (previous_nose_position : Option LandmarkPoint)
    (h : face_landmarks 1 = none) :
    monitor_head_movement face_landmarks previous_nose_position =
      ((false, 0), previous_nose_position) := by
  simp [monitor_head_movement, h]
  norm_num

/-- Claim C10 (witness at a concrete empty frame and stored position). -/
theorem claim10_witness :
    monitor_head_movement empty_frame (some p0) = ((false, 0), some p0) :=
  claim10_missing_nose empty_frame (some p0) rfl

/-- Claim C7: on any frame carrying the nose tip, `monitor_head_movement`
(1) always stores the current nose tip whatever the moved decision was,
(2) returns `(false, 0.0)` on the first call after (re)initialization and
only seeds the stored position, and (3) measures displacement from the
immediately preceding call, so a second call with identical coordinates
returns `(false, 0.0)`. -/
theorem claim7_head_movement (face_landmarks : LandmarkFrame)
    (nose : LandmarkPoint) (h : face_landmarks 1 = some nose) :
    (∀ prev, (monitor_head_movement face_landmarks prev).2 = some nose) ∧
    monitor_head_movement face_landmarks none = ((false, 0), some nose) ∧
    (∀ st, monitor_head_movement face_landmarks
        (monitor_head_movement face_landmarks st).2 = ((false, 0), some nose)) := by
  have hupd : ∀ prev, (monitor_head_movement face_landmarks prev).2 = some nose := by
    intro prev
    cases prev with
    | none => simp [monitor_head_movement, h]
    | some p =>
      simp only [monitor_head_movement, h]
      split <;> rfl
  refine ⟨hupd, by simp [monitor_head_movement, h]; norm_num, ?_⟩
  intro st
  rw [hupd st]
  simp only [monitor_head_movement, h, calculate_distance_self]
  rw [if_neg (by norm_num [movement_threshold])]
  norm_num

/-- Claim C7 (witness: a concrete nose-only frame, first and second call). -/
theorem claim7_witness :
    monitor_head_movement nose_frame none = ((false, 0), some p0) ∧
    monitor_head_movement nose_frame
      (monitor_head_movement nose_frame none).2 = ((false, 0), some p0) :=
  ⟨(claim7_head_movement nose_frame p0 rfl).2.1,
   (claim7_head_movement nose_frame p0 rfl).2.2 none⟩

/-- Claim C8: `detect_eye_state` answers `true` iff both corner-pair
distances strictly exceed `eye_open_threshold`; a distance exactly at the
threshold gives `false`, and a frame missing any required index fails
closed to `false`. -/
theorem claim8_eye_state (f : LandmarkFrame) :
    (∀ left_upper left_lower right_upper right_lower,
      f 33 = some left_upper → f 133 = some left_lower →
      f 362 = some right_upper → f 263 = some right_lower →
      ((detect_eye_state f = true ↔
         (calculate_distance left_upper left_lower > eye_open_threshold ∧
          calculate_distance right_upper right_lower > eye_open_threshold)) ∧
       ((calculate_distance left_upper left_lower = eye_open_threshold ∨
         calculate_distance right_upper right_lower = eye_open_threshold) →
        detect_eye_state f = false))) ∧
    ((f 33 = none ∨ f 133 = none ∨ f 362 = none ∨ f 263 = none) →
      detect_eye_state f = false) := by
  constructor
  · intro lu ll ru rl h33 h133 h362 h263
    have hiff : detect_eye_state f = true ↔
        (calculate_distance lu ll > eye_open_threshold ∧
         calculate_distance ru rl > eye_open_threshold) := by
      simp only [detect_eye_state, LEFT_EYE_CORNERS, RIGHT_EYE_CORNERS,
        h33, h133, h362, h263]
      split <;> rename_i hsplit
      · simpa using hsplit
      · simpa using hsplit
    refine ⟨hiff, ?_⟩
    rintro (heq | heq)
    · rw [Bool.eq_false_iff]
      intro htrue
      exact absurd (hiff.mp htrue).1 (by rw [heq]; exact lt_irrefl _)
    · rw [Bool.eq_false_iff]
      intro htrue
      exact absurd (hiff.mp htrue).2 (by rw [heq]; exact lt_irrefl _)
  · rintro (h | h | h | h) <;>
      · cases h33 : f 33 <;> cases h133 : f 133 <;> cases h362 : f 362 <;>
          cases h263 : f 263 <;>
        simp_all [detect_eye_state, LEFT_EYE_CORNERS, RIGHT_EYE_CORNERS]

/-- Claim C8 (witness: both distances `0.005` above the `0.0012`
threshold gives `true`; left distance exactly at the threshold gives
`false`; an empty frame gives `false`). -/
theorem claim8_witness :
    detect_eye_state open_eyes_frame = true ∧
    detect_eye_state threshold_eyes_frame = false ∧
    detect_eye_state empty_frame = false := by
  refine ⟨?_, ?_, ?_⟩
  · exact ((claim8_eye_state open_eyes_frame).1 pA pB pA pB rfl rfl rfl rfl).1.mpr
      (by rw [dist_pA_pB]; norm_num [eye_open_threshold])
  · exact ((claim8_eye_state threshold_eyes_frame).1 pA pC pA pB
      rfl rfl rfl rfl).2 (Or.inl dist_pA_pC)
  · exact (claim8_eye_state empty_frame).2 (Or.inl rfl)

/-- Claim C1 (counterexample): on a frame whose left-eye corners
coincide — corner-to-corner width `0` — `analyze_gaze_direction` returns
the `TRACKING_ERROR` label with the extreme flag `false`, not `true` as
the claim states. -/
theorem claim1_counterexample :
    calculate_distance p0 p0 = 0 ∧
    analyze_gaze_direction degenerate_frame .left =
      (GazeLabel.TRACKING_ERROR, false) := by
  refine ⟨calculate_distance_self p0, ?_⟩
  simp [analyze_gaze_direction, eye_indices, degenerate_frame,
    calculate_distance_self]

/-- Claim C1 (amended): the zero-width degenerate case returns the
`TRACKING_ERROR` label with the extreme flag `false`, while the
missing-landmark case returns the `DETECTION_FAILED` label with the
extreme flag `true`; neither error path ever returns `CENTER`. -/
theorem claim1_gaze_error_paths (f : LandmarkFrame) (side : EyeSide) :
    (∀ corner_left corner_right iris_center,
      f (eye_indices side).1 = some corner_left →
      f (eye_indices side).2.1 = some corner_right →
      f (eye_indices side).2.2 = some iris_center →
      calculate_distance corner_left corner_right = 0 →
      analyze_gaze_direction f side = (GazeLabel.TRACKING_ERROR, false)) ∧
    ((f (eye_indices side).1 = none ∨ f (eye_indices side).2.1 = none ∨
      f (eye_indices side).2.2 = none) →
      analyze_gaze_direction f side = (GazeLabel.DETECTION_FAILED, true)) := by
  constructor
  · intro cl cr ic h1 h2 h3 hdist
    simp [analyze_gaze_direction, h1, h2, h3, hdist]
  · rintro (h | h | h) <;>
      · cases h1 : f (eye_indices side).1 <;>
        cases h2 : f (eye_indices side).2.1 <;>
        cases h3 : f (eye_indices side).2.2 <;>
        simp_all [analyze_gaze_direction]

/-- Claim C1 (witness: the degenerate frame exercises both the zero-width
left-eye path and, through its absent right-eye landmarks, the
missing-index path). -/
theorem claim1_witness :
    analyze_gaze_direction degenerate_frame .right =
      (GazeLabel.DETECTION_FAILED, true) ∧
    analyze_gaze_direction degenerate_frame .left =
      (GazeLabel.TRACKING_ERROR, false) :=
  ⟨(claim1_gaze_error_paths degenerate_frame .right).2 (Or.inl rfl),
   (claim1_gaze_error_paths degenerate_frame .left).1 p0 p0 p0 rfl rfl rfl
     (calculate_distance_self p0)⟩

/-- Claim C6 (counterexample): when the session is already idle and no
device opens, `cycle_camera_input` returns the state completely
unchanged — in particular the status display still shows
`SYSTEM OFFLINE`, so `CameraUnavailable` is *not* reported. -/
theorem claim6_counterexample :
    cycle_camera_input (fun _ => false) idle_state = idle_state ∧
    (cycle_camera_input (fun _ => false) idle_state).control_status ≠
      CtrlStatus.CAMERA_ERROR := by
  decide

/-- Claim C6 (amended): when none of the probed devices opens, the probe
terminates with `camera_index` unchanged and the session ends idle
(`is_monitoring = false`); if monitoring had been running, the attempted
restart fails and reports `CAMERA ERROR`, while an already-idle session
is left entirely unchanged and nothing is reported. -/
theorem claim6_camera_probe_failure (opens : ℕ → Bool) (s : SysState)
    (hnone : ∀ i, opens i = false) :
    (cycle_camera_input opens s).is_monitoring = false ∧
    (cycle_camera_input opens s).camera_index = s.camera_index ∧
    (s.is_monitoring = true →
      (cycle_camera_input opens s).control_status = CtrlStatus.CAMERA_ERROR) ∧
    (s.is_monitoring = false → cycle_camera_input opens s = s) := by
  cases s with
  | mk m dev ci cs =>
    have hp := probe_camera_of_none opens ci hnone
    cases m with
    | false => simp [cycle_camera_input, hp]
    | true =>
      cases dev <;>
        simp [cycle_camera_input, terminate_monitoring, initiate_monitoring,
          hp, hnone]

/-- Claim C6 (witness: a running session, no openable device). -/
theorem claim6_witness :
    (cycle_camera_input (fun _ => false) running_state).is_monitoring = false ∧
    (cycle_camera_input (fun _ => false) running_state).control_status =
      CtrlStatus.CAMERA_ERROR ∧
    (cycle_camera_input (fun _ => false) running_state).camera_index =
      running_state.camera_index :=
  ⟨(claim6_camera_probe_failure (fun _ => false) running_state (fun _ => rfl)).1,
   (claim6_camera_probe_failure (fun _ => false) running_state
     (fun _ => rfl)).2.2.1 rfl,
   (claim6_camera_probe_failure (fun _ => false) running_state (fun _ => rfl)).2.1⟩

/-- As long as the `fps_start_time` attribute is absent, one loop
iteration keeps it absent and never touches `fps_display`: the window
check compares `current_time` with its own `getattr` default. -/
theorem fps_run_start_time_stays_absent (ts : List ℝ) :
    ∀ s : FpsState, s.fps_start_time = none →
      (fps_run s ts).fps_start_time = none ∧
      (fps_run s ts).fps_display = s.fps_display := by
  induction ts with
  | nil => intro s hs; exact ⟨hs, rfl⟩
  | cons t ts ih =>
    intro s hs
    have hstep : (fps_step s t).fps_start_time = none ∧
        (fps_step s t).fps_display = s.fps_display := by
      unfold fps_step
      split
      · exact ⟨hs, rfl⟩
      · norm_num [hs]
    simp only [fps_run]
    have h := ih (fps_step s t) hstep.1
    exact ⟨h.1, by rw [h.2, hstep.2]⟩

/-- Claim C3 (the code never performs the claimed FPS update): starting
from `__init__`, the `fps_start_time` attribute stays absent and
`fps_display` stays `0` over every sequence of processed frames; in
particular, after frames at `t = 0.5 s` and `t = 2 s` — an elapsed window
of `1.5 s ≥ 1.0 s` — the counter holds `2` un-reset and the reported FPS
is still `0`. -/
theorem claim3_fps_never_updates :
    (∀ ts : List ℝ, (fps_run initFpsState ts).fps_display = 0 ∧
      (fps_run initFpsState ts).fps_start_time = none) ∧
    fps_run initFpsState [1 / 2, 2] = ⟨2, 2, 0, none⟩ := by
  constructor
  · intro ts
    have h := fps_run_start_time_stays_absent ts initFpsState rfl
    exact ⟨by rw [h.2]; rfl, h.1⟩
  · have h1 : fps_step initFpsState (1 / 2) = ⟨1 / 2, 1, 0, none⟩ := by
      norm_num [fps_step, initFpsState]
    have h2 : fps_step ⟨1 / 2, 1, 0, none⟩ 2 = ⟨2, 2, 0, none⟩ := by
      norm_num [fps_step]
    simp only [fps_run]
    rw [h1, h2]
